import Mathlib

/- Shallow embedding of the git QA benchmark pipeline.

   The development translates the data model (models.py), the evaluator and
   its sweep driver (eval.py), and the fetch / format / generate stages
   (generate.py).  External effects are explicit parameters: the file system
   is a map from paths to file states, the remote API is a record of
   response functions, and each structured-generation capability is an
   oracle function.  A Python call that can raise is modelled as a value of
   Except String _, where the error carries the exception text. -/

/-- Python string slicing s[:n]: the first n characters of s. -/
def pySlice (s : String) (n : Nat) : String := ⟨s.data.take n⟩

/-- Run (models.py): the input descriptor consumed by the evaluator. -/
structure Run where
  task_id : String
  task : String
  env_path : String
  agent_answer_path : Option String
  source_answer_path : Option String
deriving DecidableEq

/-- EvaluationResult (eval.py): the structured rubric output produced by the
    scoring capability.  The field ranges stated in the source are only
    descriptions handed to the capability; no validator constrains them. -/
structure EvaluationResult where
  pattern_recognition : Int
  pattern_recognition_justification : String
  specific_evidence : Int
  specific_evidence_justification : String
  root_cause_analysis : Int
  root_cause_analysis_justification : String
  actionable_insights : Int
  actionable_insights_justification : String
  total_score : Int
  overall_assessment : String
deriving DecidableEq

/-- Details dict of an EvalResult (eval.py evaluate_git_qa): the success
    branch carries the rubric plus answer lengths and the task id, the
    failure branch carries the exception text instead. -/
inductive EvalDetails where
  | success (result : EvaluationResult) (source_answer_length : Nat)
      (agent_answer_length : Nat) (task_id : String)
  | failure (error : String) (task_id : String) (source_answer_length : Nat)
      (agent_answer_length : Nat)
deriving DecidableEq

/-- EvalResult (models.py): a numerical score with a details breakdown.
    Scores are modelled as exact rationals. -/
structure EvalResult where
  score : ℚ
  details : EvalDetails
deriving DecidableEq

/-- EvalFunction type alias (models.py). -/
def EvalFunction := Run → EvalResult

/-- eval_function decorator (models.py): returns a wrapper that calls the
    wrapped function on its argument. -/
def eval_function (func : EvalFunction) : EvalFunction := fun r => func r

/-- Abstract file system: a path is mapped to none when no file exists
    there, and otherwise to the outcome of reading it, which either yields
    the file text or raises. -/
abbrev FS := String → Option (Except String String)

/-- Path of the reference answer file for a task (eval.py
    get_source_answer). -/
def source_answer_file (task_id : String) : String :=
  "dataset_from_dspy/source_answers/" ++ task_id ++ ".md"

/-- get_source_answer (eval.py): a sentinel string when the file is absent,
    otherwise the result of reading it (which may raise). -/
def get_source_answer (fs : FS) (task_id : String) : Except String String :=
  match fs (source_answer_file task_id) with
  | none => .ok ("No source answer found for task " ++ task_id)
  | some r => r

/-- Conventional agent output file names searched inside env_path (eval.py
    get_agent_answer). -/
def output_files : List String :=
  ["answer.txt", "analysis.md", "response.txt", "output.txt",
   "result.md", "solution.txt", "findings.txt", "agent_output.txt"]

/-- Search loop of get_agent_answer: the first existing conventional file is
    read (which may raise); a sentinel string when none exists. -/
def find_output_file (fs : FS) (env_path : String) :
    List String → Except String String
  | [] => .ok "No agent answer file found. Agent may have provided answer in terminal output only."
  | filename :: rest =>
    match fs (env_path ++ "/" ++ filename) with
    | some r => r
    | none => find_output_file fs env_path rest

/-- get_agent_answer (eval.py): the explicit path when it is given, truthy
    and existing, otherwise the conventional files inside env_path. -/
def get_agent_answer (fs : FS) (run : Run) : Except String String :=
  match run.agent_answer_path with
  | some p =>
    if p ≠ "" then
      match fs p with
      | some r => r
      | none => find_output_file fs run.env_path output_files
    else find_output_file fs run.env_path output_files
  | none => find_output_file fs run.env_path output_files

/-- The rubric-scoring generation capability (the dspy ChainOfThought call in
    eval.py), invoked with task id, source answer and agent answer; the call
    may raise. -/
abbrev RubricOracle := String → String → String → Except String EvaluationResult

/-- evaluate_git_qa (eval.py): resolve the source and agent answers, then
    score.  Only the scoring call sits inside the try block of the source;
    the two resolution steps run before it, so their exceptions propagate. -/
def evaluate_git_qa (fs : FS) (oracle : RubricOracle) (run : Run) :
    Except String EvalResult :=
  match get_source_answer fs run.task_id with
  | .error e => .error e
  | .ok source_answer =>
    match get_agent_answer fs run with
    | .error e => .error e
    | .ok agent_answer =>
      match oracle run.task_id source_answer agent_answer with
      | .ok evaluation_result =>
        .ok { score := (evaluation_result.total_score : ℚ) / 100
              details := .success evaluation_result source_answer.length
                agent_answer.length run.task_id }
      | .error e =>
        .ok { score := 0
              details := .failure e run.task_id source_answer.length
                agent_answer.length }

/-- Task record from the tasks manifest (the fields evaluate_task reads). -/
structure TaskData where
  task_id : String
  task : String
deriving DecidableEq

/-- evaluate_task (eval.py): builds the Run (env_path falls back to the
    conventional envs directory when absent or empty) and evaluates it. -/
def evaluate_task (fs : FS) (oracle : RubricOracle) (task_data : TaskData)
    (env_path : Option String) : Except String EvalResult :=
  evaluate_git_qa fs oracle
    { task_id := task_data.task_id
      task := task_data.task
      env_path :=
        match env_path with
        | some p => if p ≠ "" then p else "./envs/" ++ task_data.task_id
        | none => "./envs/" ++ task_data.task_id
      agent_answer_path := none
      source_answer_path := none }

/-- One entry of the sweep's results list (eval.py main): the success dict
    holds task_id, score and details; the failure dict holds task_id, a 0.0
    score and an error string. -/
inductive SweepRecord where
  | ok (task_id : String) (score : ℚ) (details : EvalDetails)
  | err (task_id : String) (score : ℚ) (error : String)
deriving DecidableEq

/-- Presence of the error key in a sweep record. -/
def SweepRecord.hasError : SweepRecord → Bool
  | .ok .. => false
  | .err .. => true

/-- Score field of a sweep record. -/
def SweepRecord.score : SweepRecord → ℚ
  | .ok _ s _ => s
  | .err _ s _ => s

/-- Summary block of the sweep output (eval.py main). -/
structure SweepSummary where
  average_score : ℚ
  tasks_evaluated : Nat
  total_tasks : Nat
deriving DecidableEq

/-- Per-task body of the sweep loop in main (eval.py): an exception raised
    out of evaluate_task is caught and recorded as a 0.0 score with the
    exception text. -/
def sweep_record (fs : FS) (oracle : RubricOracle) (env_path : Option String)
    (task_data : TaskData) : SweepRecord :=
  match evaluate_task fs oracle task_data env_path with
  | .ok result => .ok task_data.task_id result.score result.details
  | .error e => .err task_data.task_id 0 e

/-- Sweep branch of main (eval.py): evaluate every task in order, then
    average the scores of the records that carry no error key. -/
def main_sweep (fs : FS) (oracle : RubricOracle) (env_path : Option String)
    (tasks : List TaskData) : SweepSummary × List SweepRecord :=
  let results := tasks.map (sweep_record fs oracle env_path)
  let valid_scores :=
    (results.filter (fun r => !r.hasError)).map SweepRecord.score
  let avg_score : ℚ :=
    if valid_scores.isEmpty then 0
    else valid_scores.sum / (valid_scores.length : ℚ)
  ({ average_score := avg_score
     tasks_evaluated := valid_scores.length
     total_tasks := tasks.length }, results)

/-- Comment on an issue or pull request: the fields the pipeline reads, with
    absent dict keys modelled as none. -/
structure Comment where
  author : Option String
  created_at : Option String
  body : Option String
deriving DecidableEq

/-- Issue or pull-request item as decoded from a listing page: the fields
    the pipeline reads, with absent dict keys modelled as none.  The
    has_pull_request flag models the presence of the pull_request key that
    marks an issue as really being a pull request. -/
structure Item where
  number : Option Nat
  title : Option String
  state : Option String
  author : Option String
  created_at : Option String
  updated_at : Option String
  merged : Option Bool
  body : Option String
  labels : List String
  comments : Option (List Comment)
  has_pull_request : Bool
deriving DecidableEq

/-- Response of one listing-endpoint page: HTTP status, decoded items, and
    the rate-limit-remaining header when present. -/
structure PageResponse where
  status : Nat
  items : List Item
  remaining : Option Nat

/-- One network request issued by the fetcher. -/
inductive Request where
  | listing (page : Nat)
  | issue_comments (number : Nat)
  | review_comments (number : Nat)
deriving DecidableEq

/-- Remote API: the listing endpoint by page number, and the two per-item
    comment endpoints, each answering with a status and a decoded body. -/
structure Network where
  listing : Nat → PageResponse
  issue_comments : Nat → Nat × List Comment
  review_comments : Nat → Nat × List Comment

/-- fetch_comments (generate.py): for pulls the union of the issue-style and
    the review comment endpoints, each kept only on status 200; for issues
    the issue comment endpoint alone.  The second component is the trace of
    requests issued. -/
def fetch_comments (net : Network) (item_type : String) (item_number : Nat) :
    List Comment × List Request :=
  if item_type = "pulls" then
    ((if (net.issue_comments item_number).1 = 200 then
        (net.issue_comments item_number).2 else []) ++
      (if (net.review_comments item_number).1 = 200 then
        (net.review_comments item_number).2 else []),
     [.issue_comments item_number, .review_comments item_number])
  else
    ((if (net.issue_comments item_number).1 = 200 then
        (net.issue_comments item_number).2 else []),
     [.issue_comments item_number])

/-- Comment-fetching pass over one page of items (the inner loop of
    fetch_github_data): each item with a truthy number gets the fetched
    comments attached under its comments key. -/
def attach_comments (net : Network) (data_type : String) :
    List Item → List Item × List Request
  | [] => ([], [])
  | item :: rest =>
    match item.number with
    | some n =>
      if n = 0 then
        (item :: (attach_comments net data_type rest).1,
         (attach_comments net data_type rest).2)
      else
        ({ item with comments := some (fetch_comments net data_type n).1 } ::
            (attach_comments net data_type rest).1,
         (fetch_comments net data_type n).2 ++
           (attach_comments net data_type rest).2)
    | none =>
      (item :: (attach_comments net data_type rest).1,
       (attach_comments net data_type rest).2)

/-- Items one successful page contributes to the accumulator: the decoded
    items, after the comment pass when comments are requested. -/
def page_items (net : Network) (data_type : String) (with_comments : Bool)
    (page : Nat) : List Item :=
  if with_comments then
    (attach_comments net data_type (net.listing page).items).1
  else (net.listing page).items

/-- Comment requests one successful page issues. -/
def page_comment_requests (net : Network) (data_type : String)
    (with_comments : Bool) (page : Nat) : List Request :=
  if with_comments then
    (attach_comments net data_type (net.listing page).items).2
  else []

/-- Paging loop of fetch_github_data (generate.py): request a page; a
    non-200 status or an empty page ends the loop; otherwise run the comment
    pass when requested, accumulate, stop after this page when the remaining
    rate-limit header is below 10, and otherwise continue with the next
    page.  The source loop is unbounded, so fuel bounds the number of pages
    considered here; the request trace is returned beside the items. -/
def fetch_pages (net : Network) (data_type : String) (with_comments : Bool) :
    Nat → Nat → List Item → List Item × List Request
  | 0, _, acc => (acc, [])
  | fuel + 1, page, acc =>
    if (net.listing page).status ≠ 200 then (acc, [.listing page])
    else if (net.listing page).items.isEmpty then (acc, [.listing page])
    else
      match (net.listing page).remaining with
      | some rem =>
        if rem < 10 then
          (acc ++ page_items net data_type with_comments page,
           .listing page :: page_comment_requests net data_type with_comments page)
        else
          (((fetch_pages net data_type with_comments fuel (page + 1)
              (acc ++ page_items net data_type with_comments page)).1),
           .listing page ::
             (page_comment_requests net data_type with_comments page ++
               (fetch_pages net data_type with_comments fuel (page + 1)
                 (acc ++ page_items net data_type with_comments page)).2))
      | none =>
        (((fetch_pages net data_type with_comments fuel (page + 1)
            (acc ++ page_items net data_type with_comments page)).1),
         .listing page ::
           (page_comment_requests net data_type with_comments page ++
             (fetch_pages net data_type with_comments fuel (page + 1)
               (acc ++ page_items net data_type with_comments page)).2))

/-- fetch_github_data (generate.py): when a file exists at the cache path
    its parsed content is returned with no network activity; otherwise the
    paging loop runs from page 1 with an empty accumulator. -/
def fetch_github_data (cache : Option (List Item)) (net : Network)
    (data_type : String) (with_comments : Bool) (fuel : Nat) :
    List Item × List Request :=
  match cache with
  | some existing_data => (existing_data, [])
  | none => fetch_pages net data_type with_comments fuel 1 []

/-- Rendered body of one comment: the dict default, then Python slicing to
    500 characters (generate.py format_pr_as_xml / format_issue_as_xml). -/
def rendered_comment_body (c : Comment) : String :=
  pySlice (c.body.getD "No content") 500

/-- XML block of one rendered comment. -/
def render_comment (c : Comment) : String :=
  "    <comment>\n      <author>" ++ c.author.getD "unknown" ++
  "</author>\n      <created_at>" ++ c.created_at.getD "unknown" ++
  "</created_at>\n      <body>" ++ rendered_comment_body c ++
  "</body>\n    </comment>\n"

/-- Comments selected for rendering: none unless the comments entry is
    present and non-empty, else the first 10. -/
def comments_to_render (item : Item) : List Comment :=
  match item.comments with
  | some cs => if cs.isEmpty then [] else cs.take 10
  | none => []

/-- Comments section of an item's XML block (this code is duplicated
    verbatim between the PR and the issue formatter in the source). -/
def comments_xml (item : Item) : String :=
  if (comments_to_render item).isEmpty then ""
  else
    "\n  <comments>\n" ++
      String.join ((comments_to_render item).map render_comment) ++
      "  </comments>"

/-- Number attribute with its N/A default. -/
def number_str (item : Item) : String :=
  match item.number with
  | some n => toString n
  | none => "N/A"

/-- Python rendering of the merged flag with its False default. -/
def merged_str (item : Item) : String :=
  if item.merged.getD false then "True" else "False"

/-- format_pr_as_xml (generate.py). -/
def format_pr_as_xml (pr : Item) : String :=
  "<pull_request number=\"" ++ number_str pr ++ "\">\n  <title>" ++
  pr.title.getD "No title" ++ "</title>\n  <state>" ++
  pr.state.getD "unknown" ++ "</state>\n  <author>" ++
  pr.author.getD "unknown" ++ "</author>\n  <created_at>" ++
  pr.created_at.getD "unknown" ++ "</created_at>\n  <updated_at>" ++
  pr.updated_at.getD "unknown" ++ "</updated_at>\n  <merged>" ++
  merged_str pr ++ "</merged>\n  <body>" ++
  pr.body.getD "No description" ++ "</body>" ++ comments_xml pr ++
  "\n</pull_request>"

/-- format_issue_as_xml (generate.py): the empty string for items that are
    really pull requests, else the issue block with its labels line. -/
def format_issue_as_xml (issue : Item) : String :=
  if issue.has_pull_request then ""
  else
    "<issue number=\"" ++ number_str issue ++ "\">\n  <title>" ++
    issue.title.getD "No title" ++ "</title>\n  <state>" ++
    issue.state.getD "unknown" ++ "</state>\n  <author>" ++
    issue.author.getD "unknown" ++ "</author>\n  <created_at>" ++
    issue.created_at.getD "unknown" ++ "</created_at>\n  <updated_at>" ++
    issue.updated_at.getD "unknown" ++ "</updated_at>\n  <labels>" ++
    String.intercalate ", " issue.labels ++ "</labels>\n  <body>" ++
    issue.body.getD "No description" ++ "</body>" ++ comments_xml issue ++
    "\n</issue>"

/-- Comments the issue formatter renders: none for pull-request items, which
    render as the empty string. -/
def issue_comments_to_render (item : Item) : List Comment :=
  if item.has_pull_request then [] else comments_to_render item

/-- Task produced by the generation capability (generate.py GitHubQATask). -/
structure GitHubQATask where
  task_id : String
  task : String
  success_criteria : String
deriving DecidableEq

/-- Output of the task-generation capability. -/
structure GenResult where
  tasks : List GitHubQATask
  reasoning : String
deriving DecidableEq

/-- Output of the deduplication capability. -/
structure DedupResult where
  unique_tasks : List GitHubQATask
  removed_count : Int
deriving DecidableEq

/-- Input fields handed to the task-generation capability. -/
structure GenInput where
  task_type : String
  task_type_description : String
  pull_requests : String
  issues : String
  examples : String
  repo_name : String
  num_tasks : Nat
deriving DecidableEq

/-- Task dict appended to the final output list. -/
structure OutputTask where
  task_id : String
  task : String
  success_criteria : String
  dir_name : String
deriving DecidableEq

/-- Example task fed into the prompt. -/
structure ExampleTask where
  task_id : String
  task : String
deriving DecidableEq

/-- PR context block (generate_tasks_for_type): the 30 most recent PRs
    rendered and joined. -/
def pr_context (prs : List Item) : String :=
  String.intercalate "\n" ((prs.take 30).map format_pr_as_xml)

/-- Issue context block (generate_tasks_for_type): the 30 most recent issues
    rendered, dropping the empty strings produced for pull-request items. -/
def issue_context (issues : List Item) : String :=
  String.intercalate "\n"
    (((issues.take 30).map format_issue_as_xml).filter (fun s => s ≠ ""))

/-- Prompt preamble and numbered example list (generate_tasks_for_type). -/
def examples_text (examples : List ExampleTask) : String :=
  "IMPORTANT: Success criteria should be attainable via referencing information available in a git repository:\n- Commit hashes, commit messages, commit authors, commit dates\n- File changes, file paths, code modifications\n- Branch names, tags, merge commits\n- Git log output, git blame information\n\nDo NOT reference:\n- PR numbers or PR titles\n- Issue numbers or issue descriptions\n- GitHub comments or reviews\n\nDo NOT include explicit git commits, branches, or tags in the success criteria. \n\nExamples:\n" ++
  String.intercalate "\n"
    (examples.enum.map (fun p =>
      "Example " ++ toString (p.1 + 1) ++ ":\n- Task ID: " ++ p.2.task_id ++
      "\n- Task: " ++ p.2.task))

/-- The task-generation capability invoked by generate_tasks_for_type; the
    call may raise. -/
abbrev TaskGenerator := GenInput → Except String GenResult

/-- The deduplication capability invoked by generate_tasks_for_type; the
    call may raise. -/
abbrev Deduplicator := List GitHubQATask → Except String DedupResult

/-- Fields handed to the generator by generate_tasks_for_type. -/
def gen_input (task_type task_description : String) (prs issues : List Item)
    (examples : List ExampleTask) (repo_name : String) (num_tasks : Nat) :
    GenInput :=
  { task_type := task_type
    task_type_description := task_description
    pull_requests := pr_context prs
    issues := issue_context issues
    examples := examples_text examples
    repo_name := repo_name
    num_tasks := num_tasks }

/-- generate_tasks_for_type (generate.py): format the context, then call the
    generator and the deduplicator inside one try block; a failure raised by
    either call is caught there and an empty list is returned. -/
def generate_tasks_for_type (generator : TaskGenerator)
    (deduplicator : Deduplicator) (task_type task_description : String)
    (prs issues : List Item) (examples : List ExampleTask)
    (repo_name : String) (num_tasks : Nat) :
    Except String (List OutputTask) :=
  match generator (gen_input task_type task_description prs issues examples
      repo_name num_tasks) with
  | .error _ => .ok []
  | .ok result =>
    match deduplicator result.tasks with
    | .error _ => .ok []
    | .ok dedup_result =>
      .ok (dedup_result.unique_tasks.map (fun t =>
        { task_id := t.task_id
          task := t.task
          success_criteria := t.success_criteria
          dir_name := "github_qa/" ++ repo_name }))

/-- Rubric carried by a successful evaluation record, when there is one. -/
def producedRubric : Except String EvalResult → Option EvaluationResult
  | .ok r =>
    match r.details with
    | .success er _ _ _ => some er
    | .failure .. => none
  | .error _ => none

/-- Score carried by a produced evaluation record, when there is one. -/
def producedScore : Except String EvalResult → Option ℚ
  | .ok r => some r.score
  | .error _ => none

/-- Rubric invariant stated by the spec: the total equals the sum of the
    four dimension scores and lies between 0 and 100. -/
abbrev rubricInvariant (er : EvaluationResult) : Prop :=
  er.total_score =
      er.pattern_recognition + er.specific_evidence +
        er.root_cause_analysis + er.actionable_insights ∧
    0 ≤ er.total_score ∧ er.total_score ≤ 100

/-- Capability outputs that respect the rubric bands: every dimension within
    0..25 and the total equal to the dimension sum. -/
abbrev wellFormedRubric (er : EvaluationResult) : Prop :=
  (0 ≤ er.pattern_recognition ∧ er.pattern_recognition ≤ 25) ∧
  (0 ≤ er.specific_evidence ∧ er.specific_evidence ≤ 25) ∧
  (0 ≤ er.root_cause_analysis ∧ er.root_cause_analysis ≤ 25) ∧
  (0 ≤ er.actionable_insights ∧ er.actionable_insights ≤ 25) ∧
  er.total_score =
    er.pattern_recognition + er.specific_evidence +
      er.root_cause_analysis + er.actionable_insights

/-- Acceptance condition of the paging loop for one page: success status, a
    non-empty item list, and a rate-limit header that is absent or at least
    the floor of 10. -/
abbrev okPage (net : Network) (page : Nat) : Prop :=
  (net.listing page).status = 200 ∧
    (net.listing page).items.isEmpty = false ∧
    10 ≤ (net.listing page).remaining.getD 10

/-- Listing requests among a request trace. -/
def is_listing : Request → Bool
  | .listing _ => true
  | _ => false

/-- Whether a sweep task's evaluation returns rather than raises. -/
def task_ok (fs : FS) (oracle : RubricOracle) (env_path : Option String)
    (task_data : TaskData) : Bool :=
  (evaluate_task fs oracle task_data env_path).isOk

/-- Score a sweep task contributes (0 when its evaluation raised). -/
def task_score (fs : FS) (oracle : RubricOracle) (env_path : Option String)
    (task_data : TaskData) : ℚ :=
  match evaluate_task fs oracle task_data env_path with
  | .ok r => r.score
  | .error _ => 0

/-- File system with no files at all: both answers resolve to sentinels. -/
def fsEmpty : FS := fun _ => none

/-- A concrete run descriptor. -/
def runA : Run :=
  { task_id := "t1", task := "q", env_path := "env"
    agent_answer_path := none, source_answer_path := none }

/-- Capability output violating the rubric invariant: all dimensions 0 but a
    total of 150. -/
def erC1 : EvaluationResult :=
  { pattern_recognition := 0, pattern_recognition_justification := ""
    specific_evidence := 0, specific_evidence_justification := ""
    root_cause_analysis := 0, root_cause_analysis_justification := ""
    actionable_insights := 0, actionable_insights_justification := ""
    total_score := 150, overall_assessment := "" }

/-- Scoring capability that always returns the invariant-violating rubric. -/
def oracleC1 : RubricOracle := fun _ _ _ => .ok erC1

/-- Capability output with a total of 200, outside the 0..100 band. -/
def erC2 : EvaluationResult :=
  { pattern_recognition := 50, pattern_recognition_justification := ""
    specific_evidence := 50, specific_evidence_justification := ""
    root_cause_analysis := 50, root_cause_analysis_justification := ""
    actionable_insights := 50, actionable_insights_justification := ""
    total_score := 200, overall_assessment := "" }

/-- Scoring capability that always returns the out-of-band rubric. -/
def oracleC2 : RubricOracle := fun _ _ _ => .ok erC2

/-- Well-formed capability output: bands 25, 20, 15 and 10 with total 70. -/
def er70 : EvaluationResult :=
  { pattern_recognition := 25, pattern_recognition_justification := "a"
    specific_evidence := 20, specific_evidence_justification := "b"
    root_cause_analysis := 15, root_cause_analysis_justification := "c"
    actionable_insights := 10, actionable_insights_justification := "d"
    total_score := 70, overall_assessment := "ok" }

/-- Scoring capability that always returns the well-formed rubric. -/
def oracleW : RubricOracle := fun _ _ _ => .ok er70

/-- Scoring capability whose call raises. -/
def oracleFail : RubricOracle := fun _ _ _ => .error "llm down"

/-- File system on which reading the agent answer file raises. -/
def fsC3 : FS :=
  fun p => if p = "agent.md" then some (.error "io fail") else none

/-- Run pointing at the unreadable agent answer file. -/
def runC3 : Run :=
  { task_id := "t9", task := "q", env_path := "env"
    agent_answer_path := some "agent.md", source_answer_path := none }

/-- A concrete candidate benchmark task. -/
def tskA : GitHubQATask :=
  { task_id := "bp1", task := "q1", success_criteria := "s1" }

/-- Task generator that returns one task. -/
def genOkC4 : TaskGenerator :=
  fun _ => .ok { tasks := [tskA], reasoning := "r" }

/-- Deduplication capability whose call raises. -/
def dedupFailC4 : Deduplicator := fun _ => .error "dedup down"

/-- A concrete history item without comments. -/
def item6 : Item :=
  { number := none, title := some "a", state := none, author := none
    created_at := none, updated_at := none, merged := none, body := none
    labels := [], comments := none, has_pull_request := false }

/-- Network whose first page succeeds with one item and whose second page
    answers with status 500. -/
def net6 : Network :=
  { listing := fun p =>
      if p = 1 then { status := 200, items := [item6], remaining := some 100 }
      else { status := 500, items := [], remaining := none }
    issue_comments := fun _ => (200, [])
    review_comments := fun _ => (200, []) }

/-- An item carrying one comment, for the rendering witness. -/
def commentW7 : Comment :=
  { author := some "u", created_at := some "2024", body := some "hello" }

/-- Item whose comments entry holds exactly that comment. -/
def itemW7 : Item :=
  { number := some 7, title := some "t", state := some "open"
    author := some "u", created_at := none, updated_at := none
    merged := none, body := some "b", labels := []
    comments := some [commentW7], has_pull_request := false }

/-- Well-formed capability outputs with totals 50 and 25 for the sweep
    witness. -/
def er50 : EvaluationResult :=
  { pattern_recognition := 20, pattern_recognition_justification := ""
    specific_evidence := 10, specific_evidence_justification := ""
    root_cause_analysis := 10, root_cause_analysis_justification := ""
    actionable_insights := 10, actionable_insights_justification := ""
    total_score := 50, overall_assessment := "" }

/-- Rubric with total 25. -/
def er25 : EvaluationResult :=
  { pattern_recognition := 10, pattern_recognition_justification := ""
    specific_evidence := 5, specific_evidence_justification := ""
    root_cause_analysis := 5, root_cause_analysis_justification := ""
    actionable_insights := 5, actionable_insights_justification := ""
    total_score := 25, overall_assessment := "" }

/-- Scoring capability keyed on the task id. -/
def oracle8 : RubricOracle :=
  fun task_id _ _ =>
    if task_id = "t1" then .ok er50
    else if task_id = "t2" then .ok er25
    else .ok er70

/-- File system on which only the reference answer of task t3 exists, and
    reading it raises. -/
def fs8 : FS :=
  fun p =>
    if p = source_answer_file "t3" then some (.error "boom") else none

/-- The three sweep tasks. -/
def td1 : TaskData := { task_id := "t1", task := "q1" }

/-- Second sweep task. -/
def td2 : TaskData := { task_id := "t2", task := "q2" }

/-- Third sweep task, whose reference answer read raises. -/
def td3 : TaskData := { task_id := "t3", task := "q3" }

/-- The sweep task list. -/
def tasks8 : List TaskData := [td1, td2, td3]

/-- The sweep environment path. -/
def env8 : Option String := some "envp"

/-- Equality of modelled call outcomes is decidable. -/
instance {ε α : Type} [DecidableEq ε] [DecidableEq α] :
    DecidableEq (Except ε α) := fun a b =>
  match a, b with
  | .ok x, .ok y =>
    if h : x = y then isTrue (by rw [h]) else isFalse (by simp [h])
  | .error x, .error y =>
    if h : x = y then isTrue (by rw [h]) else isFalse (by simp [h])
  | .ok _, .error _ => isFalse (by simp)
  | .error _, .ok _ => isFalse (by simp)

/-- Python slicing never yields more than the requested character count. -/
lemma pySlice_length_le (s : String) (n : Nat) : (pySlice s n).length ≤ n := by
  have h : (pySlice s n).length = (s.data.take n).length := rfl
  rw [h, List.length_take]
  exact Nat.min_le_left _ _

/-- Claim C10: the eval_function decorator is behavior-preserving: for every
    function from Run to EvalResult and every run, the wrapper returns
    exactly what the wrapped function returns. -/
theorem claim_C10_decorator_id (func : EvalFunction) (r : Run) :
    eval_function func r = func r := rfl

/-- Claim C5: when a file already exists at the cache path, fetch returns
    exactly the item sequence parsed from it, unchanged, and issues zero
    network requests. -/
theorem claim_C5_cache_hit (existing_data : List Item) (net : Network)
    (data_type : String) (with_comments : Bool) (fuel : Nat) :
    fetch_github_data (some existing_data) net data_type with_comments fuel =
      (existing_data, []) := rfl

/-- Claim C9: whatever item list a previous fetch produced - including a
    partial one that stopped early - a later fetch run against the cache it
    left behind returns exactly that list with zero network requests, even
    against a different network; a partial fetch is never resumed. -/
theorem claim_C9_no_resume (net net2 : Network) (data_type data_type2 : String)
    (with_comments with_comments2 : Bool) (fuel fuel2 : Nat) :
    fetch_github_data
        (some (fetch_github_data none net data_type with_comments fuel).1)
        net2 data_type2 with_comments2 fuel2 =
      ((fetch_github_data none net data_type with_comments fuel).1, []) := rfl

/-- Claim C1 counterexample: a capability output with all dimension scores 0
    but total_score 150 flows through the evaluator unchanged, so the
    produced rubric violates total_score = sum of dimensions and the 0..100
    band; the claimed invariant does not hold for every possible output of
    the generation capability. -/
theorem claim_C1_counterexample :
    producedRubric (evaluate_git_qa fsEmpty oracleC1 runA) = some erC1 ∧
    ¬ rubricInvariant erC1 := ⟨rfl, by decide⟩

/-- Claim C1 (amended): the evaluator does not enforce the rubric invariant;
    it holds for every produced rubric exactly when every output the
    capability can return respects the rubric bands (each dimension in 0..25
    and total equal to their sum), in which case total_score = sum of the
    four dimensions and 0 <= total_score <= 100. -/
theorem claim_C1_rubric_invariant (fs : FS) (oracle : RubricOracle) (run : Run)
    (hcap : ∀ ta sa aa er, oracle ta sa aa = .ok er → wellFormedRubric er) :
    ∀ er, producedRubric (evaluate_git_qa fs oracle run) = some er →
      rubricInvariant er := by
  intro er her
  unfold evaluate_git_qa at her
  cases hs : get_source_answer fs run.task_id with
  | error e => rw [hs] at her; exact absurd her (by simp [producedRubric])
  | ok sa =>
    rw [hs] at her; dsimp only at her
    cases ha : get_agent_answer fs run with
    | error e => rw [ha] at her; exact absurd her (by simp [producedRubric])
    | ok aa =>
      rw [ha] at her; dsimp only at her
      cases ho : oracle run.task_id sa aa with
      | ok er2 =>
        rw [ho] at her
        have h2 : er2 = er := by simpa [producedRubric] using her
        subst h2
        have hw := hcap _ _ _ _ ho
        unfold wellFormedRubric at hw
        unfold rubricInvariant
        omega
      | error e => rw [ho] at her; exact absurd her (by simp [producedRubric])

/-- Claim C1 witness: a well-formed capability output keeps the invariant
    through the evaluator. -/
theorem claim_C1_witness :
    producedRubric (evaluate_git_qa fsEmpty oracleW runA) = some er70 ∧
    rubricInvariant er70 :=
  ⟨rfl, claim_C1_rubric_invariant fsEmpty oracleW runA
    (fun ta sa aa er h => by
      simp only [oracleW, Except.ok.injEq] at h
      rw [← h]; decide)
    er70 rfl⟩

/-- Claim C2 counterexample: a successful evaluation of a capability output
    with total_score 200 produces the score 200/100 = 2, which lies outside
    0..1; the score is not guaranteed to lie in 0..1 for every successful
    evaluation. -/
theorem claim_C2_counterexample :
    producedScore (evaluate_git_qa fsEmpty oracleC2 runA) =
        some (((200 : Int) : ℚ) / 100) ∧
    ¬ (0 ≤ ((200 : Int) : ℚ) / 100 ∧ ((200 : Int) : ℚ) / 100 ≤ 1) :=
  ⟨rfl, by norm_num⟩

/-- Claim C2 (amended): for every successful evaluation the record's score
    equals total_score / 100 exactly (as a rational); the score lies in 0..1
    whenever the capability's total_score lies in 0..100, but the evaluator
    does not enforce that band. -/
theorem claim_C2_normalized_score (fs : FS) (oracle : RubricOracle)
    (run : Run) (er : EvaluationResult)
    (hprod : producedRubric (evaluate_git_qa fs oracle run) = some er) :
    producedScore (evaluate_git_qa fs oracle run) =
        some ((er.total_score : ℚ) / 100) ∧
    (0 ≤ er.total_score → er.total_score ≤ 100 →
      0 ≤ (er.total_score : ℚ) / 100 ∧ (er.total_score : ℚ) / 100 ≤ 1) := by
  constructor
  · unfold evaluate_git_qa at hprod ⊢
    cases hs : get_source_answer fs run.task_id with
    | error e => rw [hs] at hprod; exact absurd hprod (by simp [producedRubric])
    | ok sa =>
      rw [hs] at hprod; dsimp only at hprod ⊢
      cases ha : get_agent_answer fs run with
      | error e =>
        rw [ha] at hprod; exact absurd hprod (by simp [producedRubric])
      | ok aa =>
        rw [ha] at hprod; dsimp only at hprod ⊢
        cases ho : oracle run.task_id sa aa with
        | ok er2 =>
          rw [ho] at hprod
          have h2 : er2 = er := by simpa [producedRubric] using hprod
          subst h2
          rfl
        | error e =>
          rw [ho] at hprod; exact absurd hprod (by simp [producedRubric])
  · intro h0 h1
    constructor
    · exact div_nonneg (by exact_mod_cast h0) (by norm_num)
    · rw [div_le_one (by norm_num)]
      exact_mod_cast h1

/-- Claim C2 witness: with the well-formed total of 70 the produced score is
    70/100 and lies in 0..1. -/
theorem claim_C2_witness :
    producedScore (evaluate_git_qa fsEmpty oracleW runA) =
        some ((er70.total_score : ℚ) / 100) ∧
    (0 ≤ (er70.total_score : ℚ) / 100 ∧ (er70.total_score : ℚ) / 100 ≤ 1) :=
  ⟨(claim_C2_normalized_score fsEmpty oracleW runA er70 rfl).1,
   (claim_C2_normalized_score fsEmpty oracleW runA er70 rfl).2
     (by decide) (by decide)⟩

/-- Claim C3 counterexample: when reading the candidate answer file raises,
    the exception propagates out of the evaluator instead of being caught
    and turned into a score-0 failure record; resolution exceptions are not
    caught at this boundary. -/
theorem claim_C3_counterexample :
    evaluate_git_qa fsC3 oracleW runC3 = .error "io fail" := rfl

/-- Claim C3 (amended): an exception raised during rubric scoring is caught
    inside the evaluator, which returns a failure EvalResult with score 0.0
    and the exception text in the error detail field; exceptions raised
    during answer resolution, by contrast, propagate to the caller. -/
theorem claim_C3_scoring_caught (fs : FS) (oracle : RubricOracle) (run : Run)
    (source_answer agent_answer e : String)
    (hs : get_source_answer fs run.task_id = .ok source_answer)
    (ha : get_agent_answer fs run = .ok agent_answer)
    (ho : oracle run.task_id source_answer agent_answer = .error e) :
    evaluate_git_qa fs oracle run =
      .ok { score := 0
            details := .failure e run.task_id source_answer.length
              agent_answer.length } := by
  unfold evaluate_git_qa
  rw [hs]; dsimp only
  rw [ha]; dsimp only
  rw [ho]

/-- Claim C3 witness: a raising scoring capability yields the score-0
    failure record on a run whose answers resolve to the sentinels. -/
theorem claim_C3_witness :
    get_source_answer fsEmpty runA.task_id =
        .ok "No source answer found for task t1" ∧
    get_agent_answer fsEmpty runA =
        .ok "No agent answer file found. Agent may have provided answer in terminal output only." ∧
    oracleFail runA.task_id "No source answer found for task t1"
        "No agent answer file found. Agent may have provided answer in terminal output only." =
      .error "llm down" ∧
    evaluate_git_qa fsEmpty oracleFail runA =
      .ok { score := 0
            details := .failure "llm down" "t1"
              ("No source answer found for task t1" : String).length
              ("No agent answer file found. Agent may have provided answer in terminal output only." : String).length } :=
  ⟨rfl, rfl, rfl,
   claim_C3_scoring_caught fsEmpty oracleFail runA _ _ _ rfl rfl rfl⟩

/-- Claim C4 counterexample: with a generator that returns one task and a
    deduplicator whose call raises, generate_tasks_for_type returns an empty
    list normally; the deduplication failure does not propagate to the
    caller, contrary to the claim. -/
theorem claim_C4_counterexample :
    genOkC4 (gen_input "bug_patterns" "desc" [] [] [] "repo" 10) =
        .ok { tasks := [tskA], reasoning := "r" } ∧
    dedupFailC4 [tskA] = .error "dedup down" ∧
    generate_tasks_for_type genOkC4 dedupFailC4 "bug_patterns" "desc"
        [] [] [] "repo" 10 = .ok [] :=
  ⟨rfl, rfl, rfl⟩

/-- Claim C4 (amended): generate_tasks_for_type never lets a capability
    failure escape: a failure raised by the synthesis capability and a
    failure raised by the deduplication capability are both caught by the
    single try block and yield an empty task sequence. -/
theorem claim_C4_failures_swallowed (generator : TaskGenerator)
    (deduplicator : Deduplicator) (task_type task_description : String)
    (prs issues : List Item) (examples : List ExampleTask)
    (repo_name : String) (num_tasks : Nat) :
    ((generate_tasks_for_type generator deduplicator task_type
        task_description prs issues examples repo_name num_tasks).isOk =
      true) ∧
    (∀ e, generator (gen_input task_type task_description prs issues examples
          repo_name num_tasks) = .error e →
      generate_tasks_for_type generator deduplicator task_type
          task_description prs issues examples repo_name num_tasks =
        .ok []) ∧
    (∀ gr e, generator (gen_input task_type task_description prs issues
          examples repo_name num_tasks) = .ok gr →
      deduplicator gr.tasks = .error e →
      generate_tasks_for_type generator deduplicator task_type
          task_description prs issues examples repo_name num_tasks =
        .ok []) := by
  refine ⟨?_, ?_, ?_⟩
  · unfold generate_tasks_for_type
    cases generator (gen_input task_type task_description prs issues examples
        repo_name num_tasks) with
    | error e => rfl
    | ok gr =>
      dsimp only
      cases deduplicator gr.tasks with
      | error e => rfl
      | ok dr => rfl
  · intro e he
    unfold generate_tasks_for_type
    rw [he]
  · intro gr e hg hd
    unfold generate_tasks_for_type
    rw [hg]; dsimp only
    rw [hd]

/-- Claim C4 witness: the concrete deduplication failure is swallowed. -/
theorem claim_C4_witness :
    genOkC4 (gen_input "bug_patterns" "desc" [] [] [] "repo" 10) =
        .ok { tasks := [tskA], reasoning := "r" } ∧
    dedupFailC4 [tskA] = .error "dedup down" ∧
    generate_tasks_for_type genOkC4 dedupFailC4 "bug_patterns" "desc"
        [] [] [] "repo" 10 = .ok [] :=
  ⟨rfl, rfl,
   (claim_C4_failures_swallowed genOkC4 dedupFailC4 "bug_patterns" "desc"
       [] [] [] "repo" 10).2.2
     { tasks := [tskA], reasoning := "r" } "dedup down" rfl rfl⟩

/-- The comment selection never keeps more than 10 comments. -/
lemma comments_to_render_length_le (item : Item) :
    (comments_to_render item).length ≤ 10 := by
  unfold comments_to_render
  rcases item.comments with _ | cs
  · simp
  · dsimp only
    split
    · simp
    · exact List.length_take_le _ _

/-- Claim C7: for every input item, the rendered context block keeps at most
    10 comments per item, and each kept comment's rendered body is the
    500-character Python slice of its (defaulted) body, hence at most 500
    characters long; this holds for both the pull-request rendering and the
    issue rendering. -/
theorem claim_C7_render_bounds (item : Item) :
    (comments_to_render item).length ≤ 10 ∧
    (∀ c ∈ comments_to_render item,
      (rendered_comment_body c).data =
          (c.body.getD "No content").data.take 500 ∧
        (rendered_comment_body c).length ≤ 500) ∧
    (issue_comments_to_render item).length ≤ 10 ∧
    (∀ c ∈ issue_comments_to_render item,
      (rendered_comment_body c).length ≤ 500) := by
  refine ⟨comments_to_render_length_le item, ?_, ?_, ?_⟩
  · intro c _
    exact ⟨rfl, pySlice_length_le _ _⟩
  · unfold issue_comments_to_render
    split
    · simp
    · exact comments_to_render_length_le item
  · intro c _
    exact pySlice_length_le _ _

/-- Claim C7 witness: a concrete item with one comment. -/
theorem claim_C7_witness :
    commentW7 ∈ comments_to_render itemW7 ∧
    commentW7 ∈ issue_comments_to_render itemW7 ∧
    (comments_to_render itemW7).length ≤ 10 ∧
    (rendered_comment_body commentW7).data =
        (commentW7.body.getD "No content").data.take 500 ∧
    (rendered_comment_body commentW7).length ≤ 500 :=
  ⟨by decide, by decide, (claim_C7_render_bounds itemW7).1,
   ((claim_C7_render_bounds itemW7).2.1 commentW7 (by decide)).1,
   ((claim_C7_render_bounds itemW7).2.1 commentW7 (by decide)).2⟩

/-- The comment pass issues no listing requests. -/
lemma attach_comments_no_listing (net : Network) (data_type : String)
    (items : List Item) :
    ((attach_comments net data_type items).2).filter is_listing = [] := by
  induction items with
  | nil => rfl
  | cons item rest ih =>
    simp only [attach_comments]
    cases item.number with
    | none => exact ih
    | some n =>
      dsimp only
      by_cases hn : n = 0
      · rw [if_pos hn]; exact ih
      · rw [if_neg hn]
        dsimp only
        rw [List.filter_append, ih, List.append_nil]
        unfold fetch_comments
        split
        · rfl
        · rfl

/-- A page's comment requests contain no listing request. -/
lemma page_comment_requests_no_listing (net : Network) (data_type : String)
    (with_comments : Bool) (page : Nat) :
    (page_comment_requests net data_type with_comments page).filter
        is_listing = [] := by
  unfold page_comment_requests
  split
  · exact attach_comments_no_listing net data_type _
  · rfl

/-- The listing requests of a run of successful pages are exactly one
    request per page. -/
lemma filter_listing_flatMap (net : Network) (data_type : String)
    (with_comments : Bool) (ps : List Nat) :
    ((ps.flatMap (fun p => Request.listing p ::
        page_comment_requests net data_type with_comments p)).filter
      is_listing) = ps.map Request.listing := by
  induction ps with
  | nil => rfl
  | cons p ps ih =>
    rw [List.flatMap_cons, List.filter_append, ih, List.filter_cons]
    rw [page_comment_requests_no_listing]
    simp [is_listing]

/-- Paging-loop invariant: after a run of accepted pages, a page answering
    with a non-success status ends the loop at once; the returned items are
    the accumulator extended by the accepted pages' items, and the trace
    holds one listing request per page (with that page's comment requests)
    followed by the single failing listing request. -/
lemma fetch_pages_stop (net : Network) (data_type : String)
    (with_comments : Bool) :
    ∀ (j fuel page : Nat) (acc : List Item), j < fuel →
      (∀ i, i < j → okPage net (page + i)) →
      (net.listing (page + j)).status ≠ 200 →
      fetch_pages net data_type with_comments fuel page acc =
        (acc ++ (List.range' page j).flatMap
            (page_items net data_type with_comments),
         (List.range' page j).flatMap (fun p =>
             Request.listing p ::
               page_comment_requests net data_type with_comments p) ++
           [Request.listing (page + j)]) := by
  intro j
  induction j with
  | zero =>
    intro fuel page acc hfuel hok hbad
    match fuel, hfuel with
    | fuel + 1, _ =>
      rw [Nat.add_zero] at hbad
      simp only [fetch_pages, if_pos hbad]
      simp
  | succ j ih =>
    intro fuel page acc hfuel hok hbad
    match fuel, hfuel with
    | fuel + 1, hfuel =>
      obtain ⟨h200, hne, hrem⟩ : okPage net page := by
        have h := hok 0 (Nat.succ_pos j)
        rwa [Nat.add_zero] at h
      have hbad' : (net.listing (page + 1 + j)).status ≠ 200 := by
        have e : page + 1 + j = page + (j + 1) := by omega
        rwa [e]
      have hok' : ∀ i, i < j → okPage net (page + 1 + i) := by
        intro i hi
        have h := hok (i + 1) (by omega)
        have e : page + (i + 1) = page + 1 + i := by omega
        rwa [e] at h
      have hrec := ih fuel (page + 1)
        (acc ++ page_items net data_type with_comments page) (by omega)
        hok' hbad'
      have hstat : ¬ (net.listing page).status ≠ 200 := by simp [h200]
      have hr1 : List.range' page (j + 1) = page :: List.range' (page + 1) j :=
        rfl
      have hsh : page + 1 + j = page + (j + 1) := by omega
      simp only [fetch_pages, if_neg hstat]
      rw [if_neg (by simp [hne] : ¬ ((net.listing page).items.isEmpty = true))]
      cases hr : (net.listing page).remaining with
      | some rem =>
        dsimp only
        have hlt : ¬ rem < 10 := by
          rw [hr] at hrem
          simp only [Option.getD_some] at hrem
          omega
        rw [if_neg hlt, hrec, hr1]
        simp [List.flatMap_cons, List.append_assoc, hsh]
      | none =>
        dsimp only
        rw [hrec, hr1]
        simp [List.flatMap_cons, List.append_assoc, hsh]

/-- Claim C6: when the pages before page 1+j are all accepted and page 1+j
    answers with a non-success status, the paging loop ends immediately: the
    fetch returns exactly the items accumulated from the pages before the
    failure, and the listing trace requests each page exactly once, in
    order, ending with the single failing request - no retry. -/
theorem claim_C6_abort_on_failure (net : Network) (data_type : String)
    (with_comments : Bool) (fuel j : Nat) (hfuel : j < fuel)
    (hok : ∀ i, i < j → okPage net (1 + i))
    (hbad : (net.listing (1 + j)).status ≠ 200) :
    (fetch_github_data none net data_type with_comments fuel).1 =
        (List.range' 1 j).flatMap
          (page_items net data_type with_comments) ∧
    (fetch_github_data none net data_type with_comments fuel).2.filter
        is_listing =
      (List.range' 1 (j + 1)).map Request.listing := by
  have hok' : ∀ i, i < j → okPage net (1 + i) := hok
  have h := fetch_pages_stop net data_type with_comments j fuel 1 [] hfuel
    hok' hbad
  have hfd : fetch_github_data none net data_type with_comments fuel =
      fetch_pages net data_type with_comments fuel 1 [] := rfl
  rw [hfd, h]
  constructor
  · simp
  · rw [List.filter_append,
      filter_listing_flatMap net data_type with_comments,
      List.range'_1_concat, List.map_append]
    simp [is_listing]

/-- Claim C6 witness: page 1 of the concrete network succeeds with one item
    and page 2 answers 500; the fetch returns page 1's item and the listing
    trace is exactly pages 1 and 2, once each. -/
theorem claim_C6_witness :
    (1 < 3 ∧ (∀ i, i < 1 → okPage net6 (1 + i)) ∧
      (net6.listing (1 + 1)).status ≠ 200) ∧
    (fetch_github_data none net6 "pulls" false 3).1 =
        (List.range' 1 1).flatMap (page_items net6 "pulls" false) ∧
    (fetch_github_data none net6 "pulls" false 3).2.filter is_listing =
      (List.range' 1 2).map Request.listing :=
  ⟨⟨by decide, by decide, by decide⟩,
   claim_C6_abort_on_failure net6 "pulls" false 3 1 (by decide) (by decide)
     (by decide)⟩

/-- Claim C8: in a sweep, each per-task exception is caught individually and
    recorded as a score-0.0 entry carrying the error string; the reported
    average is the arithmetic mean over the successfully scored tasks only,
    and tasks_evaluated counts only those tasks. -/
theorem claim_C8_sweep (fs : FS) (oracle : RubricOracle)
    (env_path : Option String) (tasks : List TaskData) :
    (main_sweep fs oracle env_path tasks).1.tasks_evaluated =
        (tasks.filter (task_ok fs oracle env_path)).length ∧
    (tasks.filter (task_ok fs oracle env_path) ≠ [] →
      (main_sweep fs oracle env_path tasks).1.average_score =
        ((tasks.filter (task_ok fs oracle env_path)).map
            (task_score fs oracle env_path)).sum /
          ((tasks.filter (task_ok fs oracle env_path)).length : ℚ)) ∧
    (∀ td e, td ∈ tasks →
      evaluate_task fs oracle td env_path = .error e →
      SweepRecord.err td.task_id 0 e ∈
        (main_sweep fs oracle env_path tasks).2) := by
  have hcomp : ((fun r => !r.hasError) ∘ sweep_record fs oracle env_path) =
      task_ok fs oracle env_path := by
    funext td
    simp only [Function.comp]
    unfold sweep_record task_ok
    cases evaluate_task fs oracle td env_path <;> rfl
  have hscore : ∀ td,
      SweepRecord.score (sweep_record fs oracle env_path td) =
        task_score fs oracle env_path td := by
    intro td
    unfold sweep_record task_score
    cases evaluate_task fs oracle td env_path <;> rfl
  have hvalid :
      ((tasks.map (sweep_record fs oracle env_path)).filter
          (fun r => !r.hasError)).map SweepRecord.score =
        (tasks.filter (task_ok fs oracle env_path)).map
          (task_score fs oracle env_path) := by
    rw [List.filter_map, hcomp, List.map_map]
    exact List.map_congr_left (fun td _ => hscore td)
  refine ⟨?_, ?_, ?_⟩
  · simp only [main_sweep]
    rw [hvalid, List.length_map]
  · intro h
    simp only [main_sweep]
    rw [hvalid]
    have hne : ((tasks.filter (task_ok fs oracle env_path)).map
        (task_score fs oracle env_path)).isEmpty = false := by
      simp only [List.isEmpty_eq_false, ne_eq, List.map_eq_nil_iff]
      exact h
    rw [if_neg (by simp [hne]), List.length_map]
  · intro td e htd herr
    simp only [main_sweep]
    have h : sweep_record fs oracle env_path td = .err td.task_id 0 e := by
      unfold sweep_record
      rw [herr]
    exact h ▸ List.mem_map_of_mem _ htd

/-- Claim C8 witness: three tasks, of which t3's reference-answer read
    raises; the summary counts two evaluated tasks, averages only their
    scores, and the results list records t3 with score 0 and the error. -/
theorem claim_C8_witness :
    tasks8.filter (task_ok fs8 oracle8 env8) ≠ [] ∧
    td3 ∈ tasks8 ∧
    evaluate_task fs8 oracle8 td3 env8 = .error "boom" ∧
    (main_sweep fs8 oracle8 env8 tasks8).1.tasks_evaluated =
        (tasks8.filter (task_ok fs8 oracle8 env8)).length ∧
    (main_sweep fs8 oracle8 env8 tasks8).1.average_score =
      ((tasks8.filter (task_ok fs8 oracle8 env8)).map
          (task_score fs8 oracle8 env8)).sum /
        ((tasks8.filter (task_ok fs8 oracle8 env8)).length : ℚ) ∧
    SweepRecord.err "t3" 0 "boom" ∈ (main_sweep fs8 oracle8 env8 tasks8).2 :=
  ⟨by decide, by decide, by decide,
   (claim_C8_sweep fs8 oracle8 env8 tasks8).1,
   (claim_C8_sweep fs8 oracle8 env8 tasks8).2.1 (by decide),
   (claim_C8_sweep fs8 oracle8 env8 tasks8).2.2 td3 "boom" (by decide)
     (by decide)⟩
